import Mathlib

/-!
Verification development for the hederapay P2P gasless-payment plugin.

The definitions below are a shallow embedding of the TypeScript source:
* `queryPaymentsFromTopic` and its fold over topic messages, from
  `src/plugins/p2p-plugin/tools/query-gasless-payments.ts`;
* `generatePaymentRequestId`, `validatePaymentRequest`, `signGaslessPayment`,
  `validateSignedPayment`, `validateSponsorAuthorization`,
  `relayGaslessPayment` and the create-tool defaulting, from
  `src/shared/parameter-schemas/p2p.zod.ts` (which bundles the four tool files).

JavaScript numbers are modelled as `Nat` (timestamps, nonces, sequence
numbers) and `Rat` (amounts and fees); JavaScript string truthiness is
modelled explicitly where the source relies on it (a `0` number and an empty
or absent string are falsy).  Topic messages are modelled after JSON
decoding: the fold only reads a fixed set of fields from each message, which
are the fields of the structures below.
-/

namespace HederaPay

/-- Entry stored in the `statusUpdates` map of `queryPaymentsFromTopic`
(query-gasless-payments.ts lines 105-112): the object literal always carries
these six keys; for a `gasless_payment_failed` message the transaction and
fee fields are `undefined`, modelled as `none`. -/
structure StatusUpdate where
  status : String
  transactionId : Option String
  sponsor : Option String
  gasPaid : Option Rat
  sponsorFee : Option Rat
  timestamp : Nat
deriving DecidableEq, Repr

/-- Decoded payload of a `gasless_payment_request` topic message, restricted
to the fields the query fold reads (spread into the payment record, used by
the expiry check and the filters). -/
structure RequestData where
  paymentRequestId : String
  sender : String
  recipientAccountId : String
  paymentType : String
  amount : Rat
  maxFee : Rat
  expirationTime : Nat
  nonce : Nat
  sponsorAccountId : Option String
  timestamp : Nat
  status : String
deriving DecidableEq, Repr

/-- Decoded payload of a `gasless_payment_completed` or
`gasless_payment_failed` topic message, restricted to the fields read at
query-gasless-payments.ts lines 104-112. -/
structure CompletedData where
  paymentRequestId : String
  transactionId : Option String
  sponsor : Option String
  gasPaid : Option Rat
  sponsorFee : Option Rat
  timestamp : Nat
deriving DecidableEq, Repr

/-- Decoded content of one topic message as classified by the
`data.type` discriminator in the query fold; `other` covers messages whose
type matches no branch as well as unparseable messages (both fall through
without touching the state). -/
inductive MsgData where
  | request (d : RequestData)
  | signed (paymentRequestId : String) (timestamp : Nat)
  | completed (d : CompletedData)
  | failed (d : CompletedData)
  | other
deriving DecidableEq, Repr

/-- One mirror-node topic message as consumed by the query fold. -/
structure TopicMessage where
  sequence_number : Nat
  consensus_timestamp : Nat
  data : MsgData
deriving DecidableEq, Repr

/-- Materialized payment record pushed into the `payments` array
(query-gasless-payments.ts lines 129-163): the spread of the request payload
plus the sequence/consensus fields, the completion fields set by
`Object.assign` with a status update, and the signing fields set by the
`gasless_payment_signed` branch. -/
structure Payment where
  paymentRequestId : String
  sender : String
  recipientAccountId : String
  paymentType : String
  amount : Rat
  maxFee : Rat
  expirationTime : Nat
  nonce : Nat
  sponsorAccountId : Option String
  timestamp : Nat
  status : String
  sequenceNumber : Nat
  consensusTimestamp : Nat
  transactionId : Option String
  sponsor : Option String
  gasPaid : Option Rat
  sponsorFee : Option Rat
  signedAt : Option Nat
  signedSequenceNumber : Option Nat
deriving DecidableEq, Repr

/-- Query filters (query-gasless-payments.ts lines 79-85).  `none` models an
absent field; the source tests each filter for JavaScript truthiness before
applying it, so an empty string behaves like an absent filter. -/
structure Filters where
  senderAccountId : Option String := none
  recipientAccountId : Option String := none
  paymentType : Option String := none
  status : Option String := none
  limit : Option Nat := none
deriving DecidableEq, Repr

/-- JavaScript truthiness of an optional string: `undefined` and the empty
string are falsy. -/
def jsTruthy : Option String → Bool
  | none => false
  | some s => !s.isEmpty

/-- The number 0.05 (the default max fee of the create tool), written as a
reduced-fraction literal so that kernel evaluation never needs a gcd. -/
def ratPoint05 : Rat := ⟨1, 20, by decide, Nat.coprime_one_left 20⟩

/-- The number 0.01 (the hard-coded `gasPaid` of the relay tool and the
sponsor fee of the scenarios), as a reduced-fraction literal. -/
def ratPoint01 : Rat := ⟨1, 100, by decide, Nat.coprime_one_left 100⟩

/-- Lookup in the `statusUpdates` map, modelled as an association list with
JavaScript `Map` semantics. -/
def lookupSU (m : List (String × StatusUpdate)) (k : String) : Option StatusUpdate :=
  match m with
  | [] => none
  | (k1, v) :: rest => if k1 = k then some v else lookupSU rest k

/-- The `Map.set` operation of the `statusUpdates` map: replace the binding
for the key if present, append otherwise. -/
def setSU (m : List (String × StatusUpdate)) (k : String) (v : StatusUpdate) :
    List (String × StatusUpdate) :=
  match m with
  | [] => [(k, v)]
  | (k1, v1) :: rest => if k1 = k then (k, v) :: rest else (k1, v1) :: setSU rest k v

/-- The `gasless_payment_signed` branch (query-gasless-payments.ts lines
117-124): `payments.find` locates the first record with the matching id and
mutates its status and signing fields in place; no record is added. -/
def updateFirstSigned (id : String) (ts seq : Nat) : List Payment → List Payment
  | [] => []
  | p :: rest =>
    if p.paymentRequestId = id then
      { p with status := "signed", signedAt := some ts, signedSequenceNumber := some seq } :: rest
    else
      p :: updateFirstSigned id ts seq rest

/-- The `Object.assign(payment, statusUpdate)` step (line 138): every key of
the status-update object is copied onto the payment, including keys whose
value is `undefined`. -/
def applyStatusUpdate (p : Payment) (u : StatusUpdate) : Payment :=
  { p with
    status := u.status
    transactionId := u.transactionId
    sponsor := u.sponsor
    gasPaid := u.gasPaid
    sponsorFee := u.sponsorFee
    timestamp := u.timestamp }

/-- The payment record as first built from a request payload (lines
129-133): the spread of the decoded data plus the message's sequence number
and consensus timestamp; completion and signing fields are absent. -/
def paymentOfRequest (d : RequestData) (m : TopicMessage) : Payment :=
  { paymentRequestId := d.paymentRequestId
    sender := d.sender
    recipientAccountId := d.recipientAccountId
    paymentType := d.paymentType
    amount := d.amount
    maxFee := d.maxFee
    expirationTime := d.expirationTime
    nonce := d.nonce
    sponsorAccountId := d.sponsorAccountId
    timestamp := d.timestamp
    status := d.status
    sequenceNumber := m.sequence_number
    consensusTimestamp := m.consensus_timestamp
    transactionId := none
    sponsor := none
    gasPaid := none
    sponsorFee := none
    signedAt := none
    signedSequenceNumber := none }

/-- Conjunction of the four filter guards (lines 147-161); each guard is
skipped when its filter value is falsy. -/
def passesFilters (f : Filters) (p : Payment) : Bool :=
  (!jsTruthy f.senderAccountId || p.sender = f.senderAccountId.getD "") &&
  (!jsTruthy f.recipientAccountId || p.recipientAccountId = f.recipientAccountId.getD "") &&
  (!jsTruthy f.paymentType || p.paymentType = f.paymentType.getD "") &&
  (!jsTruthy f.status || p.status = f.status.getD "")

/-- Accumulator of the first pass of `queryPaymentsFromTopic`: the
`payments` array (in push order) and the `statusUpdates` map. -/
structure FoldState where
  payments : List Payment
  statusUpdates : List (String × StatusUpdate)
deriving DecidableEq, Repr

/-- The truthiness-guarded expiry rewrite (line 142-144): fires only on a
record with nonzero `expirationTime` in the past that is still in status
"pending". -/
def expireIfPendingPast (now : Nat) (p1 : Payment) : Payment :=
  if p1.expirationTime ≠ 0 ∧ p1.expirationTime < now ∧ p1.status = "pending" then
    { p1 with status := "expired" }
  else p1

/-- The record built for one `gasless_payment_request` message (lines
129-144): spread the payload, apply a status update from the map if one was
collected, then apply the expiry rewrite. -/
def requestRecord (now : Nat) (st : FoldState) (d : RequestData) (m : TopicMessage) : Payment :=
  let p0 := paymentOfRequest d m
  let p1 :=
    match lookupSU st.statusUpdates d.paymentRequestId with
    | some u => applyStatusUpdate p0 u
    | none => p0
  expireIfPendingPast now p1

/-- One iteration of the message loop of `queryPaymentsFromTopic` (lines
98-170), dispatching on the `data.type` discriminator.  `now` is the value
of `Date.now()` read by the expiry check on line 142. -/
def processMessage (now : Nat) (f : Filters) (st : FoldState) (m : TopicMessage) : FoldState :=
  match m.data with
  | .completed d =>
    let u : StatusUpdate :=
      ⟨"completed", d.transactionId, d.sponsor, d.gasPaid, d.sponsorFee, d.timestamp⟩
    { st with statusUpdates := setSU st.statusUpdates d.paymentRequestId u }
  | .failed d =>
    let u : StatusUpdate :=
      ⟨"failed", d.transactionId, d.sponsor, d.gasPaid, d.sponsorFee, d.timestamp⟩
    { st with statusUpdates := setSU st.statusUpdates d.paymentRequestId u }
  | .signed id ts =>
    { st with payments := updateFirstSigned id ts m.sequence_number st.payments }
  | .request d =>
    let p2 := requestRecord now st d m
    { st with payments := if passesFilters f p2 then st.payments ++ [p2] else st.payments }
  | .other => st

/-- First pass of `queryPaymentsFromTopic`: left fold of the message loop
over the topic messages, starting from the empty array and empty map. -/
def runFold (now : Nat) (f : Filters) (msgs : List TopicMessage) : FoldState :=
  msgs.foldl (processMessage now f) ⟨[], []⟩

/-- Stable insertion into a list sorted by descending `timestamp`, modelling
the stable `payments.sort((a, b) => b.timestamp - a.timestamp)`. -/
def insertByTimestampDesc (p : Payment) : List Payment → List Payment
  | [] => [p]
  | q :: rest =>
    if q.timestamp ≤ p.timestamp then p :: q :: rest else q :: insertByTimestampDesc p rest

/-- The final sort of the payments array, newest first (line 173). -/
def sortByTimestampDesc : List Payment → List Payment
  | [] => []
  | p :: rest => insertByTimestampDesc p (sortByTimestampDesc rest)

/-- Complete `queryPaymentsFromTopic` (decoding aside): fold, sort, then the
truthiness-guarded `limit` slice (lines 176-178; a zero limit is falsy and
returns everything). -/
def queryPaymentsFromTopic (now : Nat) (f : Filters) (msgs : List TopicMessage) : List Payment :=
  let st := runFold now f msgs
  let sorted := sortByTimestampDesc st.payments
  match f.limit with
  | some l => if l ≠ 0 then sorted.take l else sorted
  | none => sorted

/-! ### Request-ID derivation (p2p.zod.ts lines 646-649)

`generatePaymentRequestId` concatenates sender, recipient and nonce with
dashes, base64-encodes the UTF-8 bytes with Node's `Buffer` (standard
alphabet, `=` padding) and keeps the first 32 characters.  Strings are
modelled as their code-point bytes (`Char.toNat`), exact for the ASCII
account ids and decimal nonces the tool produces. -/

/-- Standard base64 alphabet used by Node's `Buffer.toString` with the
base64 encoding. -/
def b64Alphabet : List Char :=
  "ABCDEFGHIJKLMNOPQRSTUVWXYZabcdefghijklmnopqrstuvwxyz0123456789+/".data

/-- Character of the base64 alphabet at a 6-bit index. -/
def b64char (i : Nat) : Char := b64Alphabet.getD i 'A'

/-- Base64 encoding of a byte list, processed in 3-byte groups with `=`
padding on a trailing group of one or two bytes. -/
def base64encode : List Nat → List Char
  | [] => []
  | [a] => [b64char (a / 4), b64char (a % 4 * 16), '=', '=']
  | [a, b] => [b64char (a / 4), b64char (a % 4 * 16 + b / 16), b64char (b % 16 * 4), '=']
  | a :: b :: c :: rest =>
    b64char (a / 4) :: b64char (a % 4 * 16 + b / 16) ::
      b64char (b % 16 * 4 + c / 64) :: b64char (c % 64) :: base64encode rest

/-- Byte view of a string, one byte per character (exact for ASCII). -/
def strBytes (s : String) : List Nat := s.data.map Char.toNat

/-- The id derivation of the create tool: base64 of
`sender + "-" + recipient + "-" + nonce`, truncated to 32 characters. -/
def generatePaymentRequestId (sender recipient : String) (nonce : Nat) : String :=
  String.mk ((base64encode (strBytes (sender ++ "-" ++ recipient ++ "-" ++ Nat.repr nonce))).take 32)

/-! ### Write path: create, sign and relay tools (p2p.zod.ts) -/

/-- Caller-supplied parameters of the create tool that take part in the
defaulting on lines 503-506; `none` models an omitted optional field. -/
structure CreateParams where
  paymentType : String
  recipientAccountId : String
  tokenId : Option String := none
  nftSerialNumber : Option Nat := none
  amount : Rat
  sponsorAccountId : Option String := none
  maxFee : Option Rat := none
  expirationTime : Option Nat := none
  memo : Option String := none
  nonce : Option Nat := none
deriving DecidableEq, Repr

/-- JavaScript `a || d` for an optional number: `undefined` and `0` are
falsy and select the default. -/
def jsOrNat (o : Option Nat) (d : Nat) : Nat :=
  match o with
  | some n => if n = 0 then d else n
  | none => d

/-- JavaScript `a || d` for an optional fractional number. -/
def jsOrRat (o : Option Rat) (d : Rat) : Rat :=
  match o with
  | some q => if q = 0 then d else q
  | none => d

/-- The `gasless_payment_request` message object built by the create tool
(p2p.zod.ts lines 528-546). -/
structure PaymentRequestMsg where
  version : String
  paymentRequestId : String
  timestamp : Nat
  sender : String
  paymentType : String
  recipientAccountId : String
  tokenId : Option String
  nftSerialNumber : Option Nat
  amount : Rat
  sponsorAccountId : Option String
  maxFee : Rat
  expirationTime : Nat
  nonce : Nat
  transactionBytes : String
  status : String
deriving DecidableEq, Repr

/-- Core of `createGaslessPayment` (lines 503-546): apply the truthiness
defaults for nonce, expiration and max fee on lines 504-506 — `Date.now()`
is the parameter `now` — then build the request message posted to the
topic.  `transactionBytes` stands for the base64 of the frozen transfer
built by the external SDK. -/
def createGaslessPayment (params : CreateParams) (operatorId : String) (now : Nat)
    (transactionBytes : String) : PaymentRequestMsg :=
  let nonce := jsOrNat params.nonce now
  let expirationTime := jsOrNat params.expirationTime (now + 60 * 60 * 1000)
  let maxFee := jsOrRat params.maxFee ratPoint05
  { version := "1.0"
    paymentRequestId := generatePaymentRequestId operatorId params.recipientAccountId nonce
    timestamp := now
    sender := operatorId
    paymentType := params.paymentType
    recipientAccountId := params.recipientAccountId
    tokenId := params.tokenId
    nftSerialNumber := params.nftSerialNumber
    amount := params.amount
    sponsorAccountId := params.sponsorAccountId
    maxFee := maxFee
    expirationTime := expirationTime
    nonce := nonce
    transactionBytes := transactionBytes
    status := "pending" }

/-- The `gasless_payment_signed` message object built by the sign tool
(p2p.zod.ts lines 294-310), together with the two extra keys the relay
validators later read from it: `sponsorAccountId` (never written by the
builder — the object literal has no such key, so the read yields
`undefined`, modelled `none`) and `relayed` (likewise never written by any
producer in the repository, modelled as a Bool that stays `false`). -/
structure SignedMessage where
  version : String
  paymentRequestId : String
  timestamp : Nat
  sender : String
  recipientAccountId : String
  paymentType : String
  amount : Rat
  tokenId : Option String
  nftSerialNumber : Option Nat
  maxFee : Rat
  signedTransactionBytes : Option String
  originalSequenceNumber : Nat
  status : String
  memo : Option String
  sponsorAccountId : Option String
  relayed : Bool
deriving DecidableEq, Repr

/-- The signed-payment message as constructed on lines 294-310 from the
fetched request; note no `sponsorAccountId` key is copied from the request
and no `relayed` key is written. -/
def buildSignedMessage (r : PaymentRequestMsg) (paymentRequestId : String) (now seq : Nat)
    (signedBytes : String) : SignedMessage :=
  { version := "1.0"
    paymentRequestId := paymentRequestId
    timestamp := now
    sender := r.sender
    recipientAccountId := r.recipientAccountId
    paymentType := r.paymentType
    amount := r.amount
    tokenId := r.tokenId
    nftSerialNumber := r.nftSerialNumber
    maxFee := r.maxFee
    signedTransactionBytes := some signedBytes
    originalSequenceNumber := seq
    status := "signed"
    memo := none
    sponsorAccountId := none
    relayed := false }

/-- The `gasless_payment_completed` message built by `markPaymentAsCompleted`
(p2p.zod.ts lines 905-915). -/
structure CompletedMsg where
  version : String
  paymentRequestId : String
  timestamp : Nat
  transactionId : String
  sponsor : String
  gasPaid : Rat
  sponsorFee : Rat
  status : String
deriving DecidableEq, Repr

/-- Payload of one topic message as seen by the write-path tools, which
fetch a single message by sequence number and dispatch on its `type`
field. -/
inductive TopicPayload where
  | request (r : PaymentRequestMsg)
  | signed (s : SignedMessage)
  | completed (c : CompletedMsg)
  | other
deriving DecidableEq, Repr

/-- One topic log entry as fetched by the write-path tools. -/
structure LogEntry where
  sequence_number : Nat
  payload : TopicPayload
deriving DecidableEq, Repr

/-- Lookup of `getPaymentRequestFromTopic` (p2p.zod.ts lines 334-369):
find the message with the given sequence number and require its type to be
`gasless_payment_request`. -/
def getPaymentRequestFromTopic (msgs : List LogEntry) (sequenceNumber : Nat) :
    Except String PaymentRequestMsg :=
  match msgs.find? (fun m => m.sequence_number = sequenceNumber) with
  | none => .error "Payment request not found"
  | some m =>
    match m.payload with
    | .request r => .ok r
    | _ => .error "Message is not a payment request"

/-- The guard block of the sign tool, `validatePaymentRequest` (p2p.zod.ts
lines 372-398): id match, sender match against the operator account, the
`status` field of the fetched request message, and the truthiness-guarded
expiration check.  `hasOperatorKey` models the presence of
`client.operatorPrivateKey`. -/
def validatePaymentRequest (r : PaymentRequestMsg) (operatorId : String)
    (paymentRequestId : String) (now : Nat) (hasOperatorKey : Bool) : Except String Unit :=
  if r.paymentRequestId ≠ paymentRequestId then
    .error "Payment request ID mismatch"
  else if r.sender ≠ operatorId then
    .error "You are not the sender of this payment request"
  else if r.status ≠ "pending" then
    .error "Payment request is not pending"
  else if r.expirationTime ≠ 0 ∧ r.expirationTime < now then
    .error "Payment request has expired"
  else if !hasOperatorKey then
    .error "Private key is required to sign the transaction"
  else
    .ok ()

/-- The sign tool `signGaslessPayment` (p2p.zod.ts lines 269-331): fetch the
request at the given sequence number, run the guards, and on success return
the signed message that is posted to the topic; any guard failure surfaces
as an error and nothing is posted.  `signedBytes` stands for the base64 of
the SDK-signed transaction. -/
def signGaslessPayment (msgs : List LogEntry) (paymentRequestId : String)
    (sequenceNumber : Nat) (operatorId : String) (now : Nat) (signedBytes : String) :
    Except String SignedMessage := do
  let r ← getPaymentRequestFromTopic msgs sequenceNumber
  let _ ← validatePaymentRequest r operatorId paymentRequestId now true
  pure (buildSignedMessage r paymentRequestId now sequenceNumber signedBytes)

/-- Lookup of `getSignedPaymentFromTopic` (p2p.zod.ts lines 828-861). -/
def getSignedPaymentFromTopic (msgs : List LogEntry) (sequenceNumber : Nat) :
    Except String SignedMessage :=
  match msgs.find? (fun m => m.sequence_number = sequenceNumber) with
  | none => .error "Signed payment not found"
  | some m =>
    match m.payload with
    | .signed s => .ok s
    | _ => .error "Message is not a signed payment"

/-- The relay guard `validateSignedPayment` (p2p.zod.ts lines 864-877): the
`status` field of the fetched message must be "signed", the signed bytes
must be truthy, and the `relayed` field must be falsy. -/
def validateSignedPayment (s : SignedMessage) : Except String Unit :=
  if s.status ≠ "signed" then
    .error "Payment is not signed"
  else if !jsTruthy s.signedTransactionBytes then
    .error "Signed transaction bytes not found"
  else if s.relayed then
    .error "Payment has already been relayed"
  else
    .ok ()

/-- The relay guard `validateSponsorAuthorization` (p2p.zod.ts lines
880-894): only when the signed message carries a truthy `sponsorAccountId`
is it compared with the relaying operator's account. -/
def validateSponsorAuthorization (s : SignedMessage) (sponsorId : String) :
    Except String Unit :=
  if jsTruthy s.sponsorAccountId then
    if s.sponsorAccountId ≠ some sponsorId then
      .error "This payment requires a different sponsor"
    else
      .ok ()
  else
    .ok ()

/-- The relay tool `relayGaslessPayment` (p2p.zod.ts lines 756-825): fetch
the signed payment, run both guards, then execute the transfer (external)
and build the completion message posted by `markPaymentAsCompleted`; the
hard-coded `gasPaid` is `0.01`.  A returned `ok` means the transfer was
executed; an `error` means it was not. -/
def relayGaslessPayment (msgs : List LogEntry) (sequenceNumber : Nat) (sponsorId : String)
    (sponsorFee : Rat) (transactionId : String) (now : Nat) : Except String CompletedMsg := do
  let s ← getSignedPaymentFromTopic msgs sequenceNumber
  let _ ← validateSignedPayment s
  let _ ← validateSponsorAuthorization s sponsorId
  pure
    { version := "1.0"
      paymentRequestId := s.paymentRequestId
      timestamp := now
      transactionId := transactionId
      sponsor := sponsorId
      gasPaid := ratPoint01
      sponsorFee := sponsorFee
      status := "completed" }

/-! ### Characterizations of the fold, used by the theorems below -/

/-- Terminal (completed/failed) update carried by a message, exactly the
pair passed to `statusUpdates.set` by the fold. -/
def terminalUpdate (m : TopicMessage) : Option (String × StatusUpdate) :=
  match m.data with
  | .completed d =>
    some (d.paymentRequestId,
      ⟨"completed", d.transactionId, d.sponsor, d.gasPaid, d.sponsorFee, d.timestamp⟩)
  | .failed d =>
    some (d.paymentRequestId,
      ⟨"failed", d.transactionId, d.sponsor, d.gasPaid, d.sponsorFee, d.timestamp⟩)
  | _ => none

/-- Update of the LAST terminal message for a given id in a message list
(later messages take precedence). -/
def lastTerminal (A : String) : List TopicMessage → Option StatusUpdate
  | [] => none
  | m :: rest =>
    match lastTerminal A rest with
    | some u => some u
    | none =>
      match terminalUpdate m with
      | some x => if x.1 = A then some x.2 else none
      | none => none

/-- Number of `gasless_payment_request` messages in a list. -/
def countRequests : List TopicMessage → Nat
  | [] => 0
  | m :: rest =>
    (match m.data with
     | .request _ => 1
     | _ => 0) + countRequests rest

/-- Option fallback used to state the statusUpdates characterization. -/
def orElseSU (a b : Option StatusUpdate) : Option StatusUpdate :=
  match a with
  | some u => some u
  | none => b

/-- Agreement of two payment records on every field except `status`,
`signedAt` and `signedSequenceNumber` — that is, on the request data, the
identification fields and all completion data. -/
def coreEq (p q : Payment) : Prop :=
  p.paymentRequestId = q.paymentRequestId ∧ p.sender = q.sender ∧
  p.recipientAccountId = q.recipientAccountId ∧ p.paymentType = q.paymentType ∧
  p.amount = q.amount ∧ p.maxFee = q.maxFee ∧ p.expirationTime = q.expirationTime ∧
  p.nonce = q.nonce ∧ p.sponsorAccountId = q.sponsorAccountId ∧
  p.timestamp = q.timestamp ∧ p.sequenceNumber = q.sequenceNumber ∧
  p.consensusTimestamp = q.consensusTimestamp ∧ p.transactionId = q.transactionId ∧
  p.sponsor = q.sponsor ∧ p.gasPaid = q.gasPaid ∧ p.sponsorFee = q.sponsorFee

/-! ### Concrete scenario data used by the claim theorems and witnesses -/

/-- Request payload for id "A" used by the end-to-end scenarios: sender U,
recipient V, amount 10, nonce 7, expiration well in the future. -/
def reqA : RequestData where
  paymentRequestId := "A"
  sender := "0.0.U"
  recipientAccountId := "0.0.V"
  paymentType := "hbar_transfer"
  amount := 10
  maxFee := ratPoint05
  expirationTime := 5000000
  nonce := 7
  sponsorAccountId := none
  timestamp := 1000
  status := "pending"

/-- Completed payload for id "A" with sponsor S and a 0.01 sponsor fee. -/
def cmplA : CompletedData where
  paymentRequestId := "A"
  transactionId := some "tx1"
  sponsor := some "0.0.S"
  gasPaid := some ratPoint01
  sponsorFee := some ratPoint01
  timestamp := 3000

/-- Second completed payload for id "A", from a different sponsor S2. -/
def cmplA2 : CompletedData :=
  { cmplA with sponsor := some "0.0.S2", timestamp := 3500 }

/-- Log of the end-to-end scenario of C1: REQUEST, then SIGNED, then
COMPLETED, in ascending sequence order. -/
def c1Log : List TopicMessage :=
  [⟨1, 10, .request reqA⟩, ⟨2, 20, .signed "A" 2000⟩, ⟨3, 30, .completed cmplA⟩]

/-- Log with two COMPLETED messages for the same id before its REQUEST. -/
def c2Log : List TopicMessage :=
  [⟨1, 10, .completed cmplA⟩, ⟨2, 20, .completed cmplA2⟩, ⟨3, 30, .request reqA⟩]

/-- Prefix whose fold already has a terminal record for id "A", and a
suffix carrying a later SIGNED message for the same id. -/
def c2wPre : List TopicMessage := [⟨1, 10, .request reqA⟩]

/-- Suffix of terminal messages appended after the REQUEST of id "A". -/
def c2wPost : List TopicMessage := [⟨2, 20, .completed cmplA⟩]

/-- The record the fold creates for `reqA` when no status update has been
collected and the expiration is in the future. -/
def c2wP : Payment := paymentOfRequest reqA ⟨1, 10, .request reqA⟩

/-- Log with the same REQUEST payload twice. -/
def c3Log : List TopicMessage := [⟨1, 10, .request reqA⟩, ⟨2, 20, .request reqA⟩]

/-- Prefix: a COMPLETED for id "A" followed by its REQUEST, so the folded
record is terminal. -/
def c4Pre : List TopicMessage := [⟨1, 10, .completed cmplA⟩, ⟨2, 20, .request reqA⟩]

/-- Suffix: a later SIGNED message for id "A". -/
def c4Post : List TopicMessage := [⟨3, 30, .signed "A" 2000⟩]

/-- The terminal record the fold creates for `c4Pre`. -/
def c4wP : Payment :=
  applyStatusUpdate (paymentOfRequest reqA ⟨2, 20, .request reqA⟩)
    ⟨"completed", some "tx1", some "0.0.S", some ratPoint01, some ratPoint01, 3000⟩

/-- Request payload for id "A" whose expiration (5) is already past. -/
def reqExp : RequestData := { reqA with expirationTime := 5 }

/-- Log with an already-expired REQUEST followed by its SIGNED message. -/
def c5Log : List TopicMessage := [⟨1, 10, .request reqExp⟩, ⟨2, 20, .signed "A" 2000⟩]

/-- Single non-expired REQUEST message, used as witness input. -/
def c5wMsg : TopicMessage := ⟨1, 10, .request reqA⟩

/-- Create-tool parameters pinning sponsor 0.0.999. -/
def pinnedParams : CreateParams where
  paymentType := "hbar_transfer"
  recipientAccountId := "0.0.V"
  amount := 10
  sponsorAccountId := some "0.0.999"
  nonce := some 7

/-- Request message created from `pinnedParams` by sender 0.0.U. -/
def pinnedReq : PaymentRequestMsg := createGaslessPayment pinnedParams "0.0.U" 1000 "b64tx"

/-- Signed message produced by the sign tool for `pinnedReq`. -/
def pinnedSigned : SignedMessage :=
  buildSignedMessage pinnedReq pinnedReq.paymentRequestId 2000 1 "sb"

/-- Topic log holding the pinned request and its signed message. -/
def c7Log : List LogEntry := [⟨1, .request pinnedReq⟩, ⟨2, .signed pinnedSigned⟩]

/-- Completion message the relay tool posts when sponsor 0.0.123 relays the
pinned payment. -/
def c7Completion : CompletedMsg where
  version := "1.0"
  paymentRequestId := pinnedReq.paymentRequestId
  timestamp := 3000
  transactionId := "tx9"
  sponsor := "0.0.123"
  gasPaid := ratPoint01
  sponsorFee := ratPoint01
  status := "completed"

/-- Create-tool parameters with no pinned sponsor. -/
def unpinnedParams : CreateParams where
  paymentType := "hbar_transfer"
  recipientAccountId := "0.0.V"
  amount := 10
  nonce := some 7

/-- Unpinned request message created by sender 0.0.U. -/
def c8Req : PaymentRequestMsg := createGaslessPayment unpinnedParams "0.0.U" 1000 "b64tx"

/-- Signed message for the unpinned request. -/
def c8Signed : SignedMessage := buildSignedMessage c8Req c8Req.paymentRequestId 2000 1 "sb"

/-- Completion message of the first relay of `c8Signed`, by sponsor
0.0.777. -/
def c8Completion1 : CompletedMsg where
  version := "1.0"
  paymentRequestId := c8Req.paymentRequestId
  timestamp := 2500
  transactionId := "tx1"
  sponsor := "0.0.777"
  gasPaid := ratPoint01
  sponsorFee := ratPoint01
  status := "completed"

/-- Topic log in which the signed payment at sequence 2 has already been
relayed: its COMPLETED message is at sequence 3. -/
def c8Log : List LogEntry :=
  [⟨1, .request c8Req⟩, ⟨2, .signed c8Signed⟩, ⟨3, .completed c8Completion1⟩]

/-- Completion message of the duplicate relay of `c8Signed` by sponsor
0.0.888. -/
def c8Completion2 : CompletedMsg where
  version := "1.0"
  paymentRequestId := c8Req.paymentRequestId
  timestamp := 4000
  transactionId := "tx2"
  sponsor := "0.0.888"
  gasPaid := ratPoint01
  sponsorFee := ratPoint01
  status := "completed"

/-- Unpinned request message for the sign-twice scenario. -/
def c9Req : PaymentRequestMsg := createGaslessPayment unpinnedParams "0.0.U" 1000 "b64tx"

/-- Signed message already in the log for `c9Req`. -/
def c9Signed : SignedMessage := buildSignedMessage c9Req c9Req.paymentRequestId 2000 1 "sb"

/-- Topic log in which the request at sequence 1 has already been signed:
its SIGNED message is at sequence 2. -/
def c9Log : List LogEntry := [⟨1, .request c9Req⟩, ⟨2, .signed c9Signed⟩]

/-- Create-tool parameters explicitly passing nonce 0 and maxFee 0. -/
def zeroParams : CreateParams where
  paymentType := "hbar_transfer"
  recipientAccountId := "0.0.V"
  amount := 10
  nonce := some 0
  maxFee := some 0

lemma coreEq_refl (p : Payment) : coreEq p p :=
  ⟨rfl, rfl, rfl, rfl, rfl, rfl, rfl, rfl, rfl, rfl, rfl, rfl, rfl, rfl, rfl, rfl⟩

lemma coreEq_trans {p q r : Payment} (h1 : coreEq p q) (h2 : coreEq q r) : coreEq p r := by
  obtain ⟨a1, a2, a3, a4, a5, a6, a7, a8, a9, a10, a11, a12, a13, a14, a15, a16⟩ := h1
  obtain ⟨b1, b2, b3, b4, b5, b6, b7, b8, b9, b10, b11, b12, b13, b14, b15, b16⟩ := h2
  exact ⟨a1.trans b1, a2.trans b2, a3.trans b3, a4.trans b4, a5.trans b5, a6.trans b6,
    a7.trans b7, a8.trans b8, a9.trans b9, a10.trans b10, a11.trans b11, a12.trans b12,
    a13.trans b13, a14.trans b14, a15.trans b15, a16.trans b16⟩

lemma lookupSU_setSU_self (m : List (String × StatusUpdate)) (k : String) (v : StatusUpdate) :
    lookupSU (setSU m k v) k = some v := by
  induction m with
  | nil => simp [setSU, lookupSU]
  | cons h t ih =>
    obtain ⟨k1, v1⟩ := h
    by_cases hk : k1 = k <;> simp [setSU, lookupSU, hk, ih]

lemma lookupSU_setSU_ne (m : List (String × StatusUpdate)) (k A : String) (v : StatusUpdate)
    (h : k ≠ A) : lookupSU (setSU m k v) A = lookupSU m A := by
  induction m with
  | nil => simp [setSU, lookupSU, h]
  | cons hd t ih =>
    obtain ⟨k1, v1⟩ := hd
    by_cases hk : k1 = k
    · subst hk
      simp [setSU, lookupSU, h, ih]
    · simp [setSU, lookupSU, hk, ih]

lemma statusUpdates_processMessage (now : Nat) (f : Filters) (st : FoldState)
    (m : TopicMessage) :
    (processMessage now f st m).statusUpdates =
      match terminalUpdate m with
      | some x => setSU st.statusUpdates x.1 x.2
      | none => st.statusUpdates := by
  cases hm : m.data <;> simp [processMessage, terminalUpdate, hm]

/-- After folding a message list, the statusUpdates entry of an id is the
update of the LAST terminal message for that id, falling back to the
incoming state. -/
lemma lookupSU_foldl (now : Nat) (f : Filters) :
    ∀ (msgs : List TopicMessage) (st : FoldState) (A : String),
      lookupSU (msgs.foldl (processMessage now f) st).statusUpdates A =
        orElseSU (lastTerminal A msgs) (lookupSU st.statusUpdates A) := by
  intro msgs
  induction msgs with
  | nil => intro st A; rfl
  | cons m rest ih =>
    intro st A
    simp only [List.foldl_cons]
    rw [ih]
    rcases hLT : lastTerminal A rest with _ | u
    · simp only [orElseSU]
      rw [statusUpdates_processMessage]
      rcases hTU : terminalUpdate m with _ | x
      · simp [lastTerminal, hLT, hTU, orElseSU]
      · by_cases hid : x.1 = A
        · rw [← hid]
          simp [lastTerminal, hLT, hTU, orElseSU, hid, lookupSU_setSU_self]
        · simp [lastTerminal, hLT, hTU, orElseSU, hid, lookupSU_setSU_ne _ _ _ _ hid]
    · simp [lastTerminal, hLT, orElseSU]

lemma length_updateFirstSigned (id : String) (ts seq : Nat) :
    ∀ l : List Payment, (updateFirstSigned id ts seq l).length = l.length := by
  intro l
  induction l with
  | nil => rfl
  | cons p rest ih =>
    by_cases hp : p.paymentRequestId = id <;> simp [updateFirstSigned, hp, ih]

lemma getElem?_updateFirstSigned (id : String) (ts seq : Nat) :
    ∀ (l : List Payment) (i : Nat) (p : Payment), l[i]? = some p →
      ∃ q, (updateFirstSigned id ts seq l)[i]? = some q ∧ coreEq q p ∧
        (q.status = p.status ∨ q.status = "signed") := by
  intro l
  induction l with
  | nil => intro i p h; simp at h
  | cons a t ih =>
    intro i p h
    cases i with
    | zero =>
      simp at h
      subst h
      by_cases ha : a.paymentRequestId = id
      · exact ⟨{ a with status := "signed", signedAt := some ts, signedSequenceNumber := some seq },
          by simp [updateFirstSigned, ha],
          ⟨rfl, rfl, rfl, rfl, rfl, rfl, rfl, rfl, rfl, rfl, rfl, rfl, rfl, rfl, rfl, rfl⟩,
          Or.inr rfl⟩
      · exact ⟨a, by simp [updateFirstSigned, ha], coreEq_refl a, Or.inl rfl⟩
    | succ j =>
      simp only [List.getElem?_cons_succ] at h
      by_cases ha : a.paymentRequestId = id
      · exact ⟨p, by simp [updateFirstSigned, ha, h], coreEq_refl p, Or.inl rfl⟩
      · obtain ⟨q, hq, hc, hs⟩ := ih j p h
        exact ⟨q, by simp [updateFirstSigned, ha, hq], hc, hs⟩

lemma statusStep {a b c : String} (h1 : b = a ∨ b = "signed")
    (h2 : c = b ∨ c = "signed") : c = a ∨ c = "signed" := by
  rcases h2 with h2 | h2
  · rcases h1 with h1 | h1
    · exact Or.inl (h2.trans h1)
    · exact Or.inr (h2.trans h1)
  · exact Or.inr h2

lemma getElem?_processMessage (now : Nat) (f : Filters) (st : FoldState) (m : TopicMessage)
    (i : Nat) (p : Payment) (h : st.payments[i]? = some p) :
    ∃ q, (processMessage now f st m).payments[i]? = some q ∧ coreEq q p ∧
      (q.status = p.status ∨ q.status = "signed") := by
  have hi : i < st.payments.length := by
    by_contra hlt
    rw [List.getElem?_eq_none (Nat.le_of_not_lt hlt)] at h
    exact Option.noConfusion h
  cases hm : m.data with
  | completed d => exact ⟨p, by simp [processMessage, hm, h], coreEq_refl p, Or.inl rfl⟩
  | failed d => exact ⟨p, by simp [processMessage, hm, h], coreEq_refl p, Or.inl rfl⟩
  | other => exact ⟨p, by simp [processMessage, hm, h], coreEq_refl p, Or.inl rfl⟩
  | signed id ts =>
    obtain ⟨q, hq, hc, hs⟩ := getElem?_updateFirstSigned id ts m.sequence_number st.payments i p h
    exact ⟨q, by simp [processMessage, hm, hq], hc, hs⟩
  | request d =>
    refine ⟨p, ?_, coreEq_refl p, Or.inl rfl⟩
    simp only [processMessage, hm]
    split
    · rw [List.getElem?_append, if_pos hi]
      exact h
    · exact h

/-- Folding further messages never touches the request data nor the
completion data of an already-created record, and can change its status
only to "signed". -/
lemma getElem?_foldl_payments (now : Nat) (f : Filters) :
    ∀ (msgs : List TopicMessage) (st : FoldState) (i : Nat) (p : Payment),
      st.payments[i]? = some p →
      ∃ q, ((msgs.foldl (processMessage now f) st).payments)[i]? = some q ∧ coreEq q p ∧
        (q.status = p.status ∨ q.status = "signed") := by
  intro msgs
  induction msgs with
  | nil => intro st i p h; exact ⟨p, h, coreEq_refl p, Or.inl rfl⟩
  | cons m rest ih =>
    intro st i p h
    obtain ⟨r, hr, hcr, hsr⟩ := getElem?_processMessage now f st m i p h
    obtain ⟨q, hq, hcq, hsq⟩ := ih (processMessage now f st m) i r hr
    exact ⟨q, by simpa using hq, coreEq_trans hcq hcr, statusStep hsr hsq⟩

/-- A record that is still "pending" is not past a nonzero expiration. -/
def pendingExpiryOk (now : Nat) (p : Payment) : Prop :=
  p.status = "pending" → p.expirationTime = 0 ∨ ¬ p.expirationTime < now

lemma pendingExpiryOk_updateFirstSigned (now : Nat) (id : String) (ts seq : Nat) :
    ∀ l : List Payment, (∀ p ∈ l, pendingExpiryOk now p) →
      ∀ q ∈ updateFirstSigned id ts seq l, pendingExpiryOk now q := by
  intro l
  induction l with
  | nil => intro _ q hq; exact absurd hq (by simp [updateFirstSigned])
  | cons a t ih =>
    intro hl q hq
    rw [updateFirstSigned] at hq
    by_cases ha : a.paymentRequestId = id
    · rw [if_pos ha] at hq
      rcases List.mem_cons.mp hq with hq | hq
      · subst hq
        intro hs
        exact absurd hs (by simp)
      · exact hl q (List.mem_cons_of_mem a hq)
    · rw [if_neg ha] at hq
      rcases List.mem_cons.mp hq with hq | hq
      · subst hq
        exact hl q (List.mem_cons_self q t)
      · exact ih (fun p hp => hl p (List.mem_cons_of_mem a hp)) q hq

lemma pendingExpiryOk_expireIfPendingPast (now : Nat) (p1 : Payment) :
    pendingExpiryOk now (expireIfPendingPast now p1) := by
  unfold expireIfPendingPast
  split
  · intro hs
    exact absurd hs (by simp)
  · intro hs
    rename_i hcond
    rw [not_and_or, not_and_or] at hcond
    rcases hcond with h1 | h2 | h3
    · exact Or.inl (not_not.mp h1)
    · exact Or.inr h2
    · exact absurd hs h3

lemma pendingExpiryOk_requestRecord (now : Nat) (st : FoldState) (d : RequestData)
    (m : TopicMessage) : pendingExpiryOk now (requestRecord now st d m) :=
  pendingExpiryOk_expireIfPendingPast now _

lemma pendingExpiryOk_processMessage (now : Nat) (f : Filters) (st : FoldState)
    (m : TopicMessage) (h : ∀ p ∈ st.payments, pendingExpiryOk now p) :
    ∀ q ∈ (processMessage now f st m).payments, pendingExpiryOk now q := by
  intro q hq
  cases hm : m.data
  case completed d =>
    simp only [processMessage, hm] at hq
    exact h q hq
  case failed d =>
    simp only [processMessage, hm] at hq
    exact h q hq
  case other =>
    simp only [processMessage, hm] at hq
    exact h q hq
  case signed id ts =>
    simp only [processMessage, hm] at hq
    exact pendingExpiryOk_updateFirstSigned now id ts m.sequence_number st.payments h q hq
  case request d =>
    simp only [processMessage, hm] at hq
    by_cases hpf : passesFilters f (requestRecord now st d m) = true
    · rw [if_pos hpf] at hq
      rcases List.mem_append.mp hq with hq | hq
      · exact h q hq
      · rw [List.mem_singleton] at hq
        subst hq
        exact pendingExpiryOk_requestRecord now st d m
    · rw [if_neg hpf] at hq
      exact h q hq

lemma pendingExpiryOk_foldl (now : Nat) (f : Filters) :
    ∀ (msgs : List TopicMessage) (st : FoldState),
      (∀ p ∈ st.payments, pendingExpiryOk now p) →
      ∀ q ∈ ((msgs.foldl (processMessage now f) st).payments), pendingExpiryOk now q := by
  intro msgs
  induction msgs with
  | nil => intro st h q hq; exact h q hq
  | cons m rest ih =>
    intro st h q hq
    exact ih (processMessage now f st m) (pendingExpiryOk_processMessage now f st m h) q
      (by simpa using hq)

lemma mem_insertByTimestampDesc (p q : Payment) :
    ∀ l : List Payment, (q ∈ insertByTimestampDesc p l ↔ q = p ∨ q ∈ l) := by
  intro l
  induction l with
  | nil => simp [insertByTimestampDesc]
  | cons a t ih =>
    rw [insertByTimestampDesc]
    by_cases ha : a.timestamp ≤ p.timestamp
    · rw [if_pos ha]
      simp [List.mem_cons]
    · rw [if_neg ha]
      simp only [List.mem_cons, ih]
      tauto

lemma mem_sortByTimestampDesc (q : Payment) :
    ∀ l : List Payment, (q ∈ sortByTimestampDesc l ↔ q ∈ l) := by
  intro l
  induction l with
  | nil => simp [sortByTimestampDesc]
  | cons a t ih => simp [sortByTimestampDesc, mem_insertByTimestampDesc, ih]

lemma length_insertByTimestampDesc (p : Payment) :
    ∀ l : List Payment, (insertByTimestampDesc p l).length = l.length + 1 := by
  intro l
  induction l with
  | nil => rfl
  | cons a t ih =>
    by_cases ha : a.timestamp ≤ p.timestamp <;> simp [insertByTimestampDesc, ha, ih]

lemma length_sortByTimestampDesc :
    ∀ l : List Payment, (sortByTimestampDesc l).length = l.length := by
  intro l
  induction l with
  | nil => rfl
  | cons a t ih => simp [sortByTimestampDesc, length_insertByTimestampDesc, ih]

lemma mem_queryPaymentsFromTopic (now : Nat) (f : Filters) (msgs : List TopicMessage)
    (p : Payment) (h : p ∈ queryPaymentsFromTopic now f msgs) :
    p ∈ (runFold now f msgs).payments := by
  rcases hl : f.limit with _ | l
  all_goals simp only [queryPaymentsFromTopic, hl] at h
  · exact (mem_sortByTimestampDesc p _).mp h
  · split at h
    · exact (mem_sortByTimestampDesc p _).mp (List.take_subset l _ h)
    · exact (mem_sortByTimestampDesc p _).mp h

lemma passesFilters_default (p : Payment) : passesFilters {} p = true := rfl

lemma length_foldl_default (now : Nat) :
    ∀ (msgs : List TopicMessage) (st : FoldState),
      ((msgs.foldl (processMessage now ({} : Filters)) st).payments).length =
        st.payments.length + countRequests msgs := by
  intro msgs
  induction msgs with
  | nil => intro st; simp [countRequests]
  | cons m rest ih =>
    intro st
    simp only [List.foldl_cons, ih]
    cases hm : m.data <;>
      simp [processMessage, hm, countRequests, length_updateFirstSigned,
        passesFilters_default]
    all_goals omega

lemma orElseSU_none (x : Option StatusUpdate) : orElseSU x none = x := by
  cases x <;> rfl

lemma strBytes_append (s t : String) : strBytes (s ++ t) = strBytes s ++ strBytes t := by
  rcases s with ⟨ls⟩
  rcases t with ⟨lt⟩
  show (ls ++ lt).map Char.toNat = ls.map Char.toNat ++ lt.map Char.toNat
  exact List.map_append Char.toNat ls lt

lemma length_strBytes (s : String) : (strBytes s).length = s.length := by
  rcases s with ⟨ls⟩
  show (ls.map Char.toNat).length = ls.length
  simp

/-- The first `4 * k` base64 characters depend only on the first `3 * k`
input bytes: appending different suffixes after a long enough prefix cannot
change them. -/
lemma take_base64encode_append :
    ∀ (k : Nat) (P N1 N2 : List Nat), 3 * k ≤ P.length →
      (base64encode (P ++ N1)).take (4 * k) = (base64encode (P ++ N2)).take (4 * k) := by
  intro k
  induction k with
  | zero => intro P N1 N2 h; simp
  | succ k ih =>
    intro P N1 N2 h
    rcases P with _ | ⟨a, P1⟩
    · exfalso
      simp only [List.length_nil] at h
      omega
    rcases P1 with _ | ⟨b, P2⟩
    · exfalso
      simp only [List.length_cons, List.length_nil] at h
      omega
    rcases P2 with _ | ⟨c, t⟩
    · exfalso
      simp only [List.length_cons, List.length_nil] at h
      omega
    have ht : 3 * k ≤ t.length := by
      simp only [List.length_cons] at h
      omega
    simp only [List.cons_append, base64encode]
    rw [show 4 * (k + 1) = 4 * k + 1 + 1 + 1 + 1 from by ring]
    simp only [List.take_succ_cons, List.append_eq]
    rw [ih t N1 N2 ht]

/-! ### Claim theorems -/

/-- C1: in the log order REQUEST(A), SIGNED(A), COMPLETED(A, sponsor S,
fee 0.01) the claim expects one COMPLETED record with the 0.01 fee attached
and returned by a status=completed query; the code instead leaves the
record in status "signed" with no sponsor fee, because a status update
collected after the REQUEST message is never applied to the already-pushed
record, so the filtered query returns nothing. -/
theorem claim1_completed_never_attached :
    queryPaymentsFromTopic 1000 { status := some "completed", limit := some 10 } c1Log = [] ∧
    (queryPaymentsFromTopic 1000 { limit := some 10 } c1Log).map
      (fun p => (p.status, p.sponsorFee)) = [("signed", none)] :=
  ⟨by decide, by decide⟩

/-- C2 counterexample: with two COMPLETED messages for id "A" (sponsor S
first, sponsor S2 second) before its REQUEST, the reconciled record keeps
the SECOND completion's sponsor S2, not the first as the claim states. -/
theorem claim2_counterexample :
    (queryPaymentsFromTopic 1000 {} c2Log).map (fun p => p.sponsor) = [some "0.0.S2"] ∧
    ("0.0.S2" : String) ≠ "0.0.S" :=
  ⟨by decide, by decide⟩

/-- C2 amended: the statusUpdates entry consulted when a REQUEST is folded
holds the LAST terminal message for the id seen so far (later terminal
messages overwrite earlier ones), and once a record has been created, no
later message ever changes its completion data (terminal messages after the
REQUEST are never attached at all). -/
theorem claim2_last_terminal_wins :
    (∀ (now : Nat) (f : Filters) (msgs : List TopicMessage) (A : String),
      lookupSU (runFold now f msgs).statusUpdates A = lastTerminal A msgs) ∧
    (∀ (now : Nat) (f : Filters) (pre post : List TopicMessage) (i : Nat) (p : Payment),
      (runFold now f pre).payments[i]? = some p →
      ∃ q, (runFold now f (pre ++ post)).payments[i]? = some q ∧ coreEq q p) := by
  constructor
  · intro now f msgs A
    have h := lookupSU_foldl now f msgs ⟨[], []⟩ A
    rw [runFold]
    rw [h]
    show orElseSU (lastTerminal A msgs) none = lastTerminal A msgs
    exact orElseSU_none _
  · intro now f pre post i p h
    obtain ⟨q, hq, hc, _⟩ := getElem?_foldl_payments now f post (runFold now f pre) i p h
    refine ⟨q, ?_, hc⟩
    rw [runFold, List.foldl_append]
    exact hq

/-- C2 witness: applying the preservation part at a concrete log — the
record created for `reqA` keeps its completion fields untouched after a
later COMPLETED message is folded. -/
theorem claim2_witness :
    ∃ q, (runFold 1000 {} (c2wPre ++ c2wPost)).payments[0]? = some q ∧ coreEq q c2wP :=
  claim2_last_terminal_wins.2 1000 {} c2wPre c2wPost 0 c2wP (by decide)

/-- C3 counterexample: a log with the same REQUEST (id "A") twice yields
TWO records for that id, not one. -/
theorem claim3_counterexample :
    (queryPaymentsFromTopic 1000 {} c3Log).map (fun p => p.paymentRequestId) = ["A", "A"] := by
  decide

/-- C3 amended: with no filters, the reconciled view has exactly one record
per REQUEST message occurrence — duplicate REQUESTs with the same id are
NOT coalesced, each produces its own record. -/
theorem claim3_record_per_request :
    ∀ (now : Nat) (msgs : List TopicMessage),
      (queryPaymentsFromTopic now {} msgs).length = countRequests msgs := by
  intro now msgs
  show (sortByTimestampDesc (runFold now {} msgs).payments).length = countRequests msgs
  rw [length_sortByTimestampDesc]
  have h := length_foldl_default now msgs ⟨[], []⟩
  simpa [runFold] using h

/-- C4 counterexample: after folding COMPLETED(A) then REQUEST(A) the
record for "A" is terminal ("completed"), yet folding one more message —
SIGNED(A) — rewrites its status to "signed". -/
theorem claim4_counterexample :
    ((runFold 1000 {} c4Pre).payments.map (fun p => p.status) = ["completed"]) ∧
    ((runFold 1000 {} (c4Pre ++ c4Post)).payments.map (fun p => p.status) = ["signed"]) :=
  ⟨by decide, by decide⟩

/-- C4 amended: once a record is terminal, later messages never change its
completion data and never rewrite it to "expired"; the only status change a
later message can make is a SIGNED message overwriting the terminal status
with "signed". -/
theorem claim4_terminal_core_frozen :
    ∀ (now : Nat) (f : Filters) (pre post : List TopicMessage) (i : Nat) (p : Payment),
      (runFold now f pre).payments[i]? = some p →
      (p.status = "completed" ∨ p.status = "failed") →
      ∃ q, (runFold now f (pre ++ post)).payments[i]? = some q ∧ coreEq q p ∧
        (q.status = p.status ∨ q.status = "signed") ∧ q.status ≠ "expired" := by
  intro now f pre post i p h hterm
  obtain ⟨q, hq, hc, hs⟩ := getElem?_foldl_payments now f post (runFold now f pre) i p h
  refine ⟨q, ?_, hc, hs, ?_⟩
  · rw [runFold, List.foldl_append]
    exact hq
  · rcases hs with hs | hs
    · rw [hs]
      rcases hterm with ht | ht <;> rw [ht] <;> simp
    · rw [hs]
      simp

/-- C4 witness: the amended theorem applied to the concrete terminal record
of `c4Pre` with the SIGNED suffix `c4Post`. -/
theorem claim4_witness :
    ∃ q, (runFold 1000 {} (c4Pre ++ c4Post)).payments[0]? = some q ∧ coreEq q c4wP ∧
      (q.status = c4wP.status ∨ q.status = "signed") ∧ q.status ≠ "expired" :=
  claim4_terminal_core_frozen 1000 {} c4Pre c4Post 0 c4wP (by decide) (by decide)

/-- C5 counterexample: the record of an expired REQUEST later followed by a
SIGNED message ends in status "signed" although its expirationTime 5 is
strictly below the current time 100 — the claim demands "expired". -/
theorem claim5_counterexample :
    (queryPaymentsFromTopic 100 {} c5Log).map (fun p => (p.status, p.expirationTime)) =
      [("signed", 5)] ∧ (5 : Nat) < 100 ∧ ("signed" : String) ≠ "expired" :=
  ⟨by decide, by decide, by decide⟩

/-- C5 amended: the expiry rewrite applies only to records that are still
"pending" when their REQUEST message is folded (and have a nonzero
expiration in the past); consequently no record is ever left PENDING past a
nonzero expiration, but SIGNED records are never rewritten to EXPIRED. -/
theorem claim5_pending_expiry :
    ∀ (now : Nat) (f : Filters) (msgs : List TopicMessage) (p : Payment),
      p ∈ queryPaymentsFromTopic now f msgs → p.status = "pending" →
      p.expirationTime = 0 ∨ ¬ p.expirationTime < now := by
  intro now f msgs p hmem hs
  have hmem2 := mem_queryPaymentsFromTopic now f msgs p hmem
  have h := pendingExpiryOk_foldl now f msgs ⟨[], []⟩ (by simp) p (by simpa [runFold] using hmem2)
  exact h hs

/-- C5 witness: the amended theorem applied to the pending record of a
single fresh REQUEST message. -/
theorem claim5_witness :
    (paymentOfRequest reqA c5wMsg).expirationTime = 0 ∨
      ¬ (paymentOfRequest reqA c5wMsg).expirationTime < 1000 :=
  claim5_pending_expiry 1000 {} [c5wMsg] (paymentOfRequest reqA c5wMsg) (by decide) (by decide)

/-- C6 counterexample: for thirteen-character sender and recipient account
ids the 32-character truncation cuts before the nonce, so the DISTINCT
nonces 1 and 2 derive the SAME id — the claim requires distinct ids. -/
theorem claim6_counterexample :
    (1 : Nat) ≠ 2 ∧
    generatePaymentRequestId "0.0.111111111" "0.0.222222222" 1 =
      generatePaymentRequestId "0.0.111111111" "0.0.222222222" 2 :=
  ⟨by decide, by decide⟩

/-- C6 amended: the derivation is pure and deterministic (equal triples
yield equal ids), but nonce-injectivity fails: whenever the prefix
`sender-recipient-` is at least 24 characters long, the first 32 base64
characters depend only on that prefix, so ALL nonces derive the same id. -/
theorem claim6_id_determinism_and_truncation :
    (∀ (s r : String) (n : Nat),
      generatePaymentRequestId s r n = generatePaymentRequestId s r n) ∧
    (∀ (s r : String) (n1 n2 : Nat), 24 ≤ (s ++ "-" ++ r ++ "-").length →
      generatePaymentRequestId s r n1 = generatePaymentRequestId s r n2) := by
  constructor
  · intro s r n
    rfl
  · intro s r n1 n2 h
    unfold generatePaymentRequestId
    have e1 : ∀ n : Nat, strBytes (s ++ "-" ++ r ++ "-" ++ Nat.repr n) =
        strBytes (s ++ "-" ++ r ++ "-") ++ strBytes (Nat.repr n) := fun n =>
      strBytes_append (s ++ "-" ++ r ++ "-") (Nat.repr n)
    rw [e1 n1, e1 n2]
    have hlen : 3 * 8 ≤ (strBytes (s ++ "-" ++ r ++ "-")).length := by
      rw [length_strBytes]
      omega
    have := take_base64encode_append 8 (strBytes (s ++ "-" ++ r ++ "-"))
      (strBytes (Nat.repr n1)) (strBytes (Nat.repr n2)) hlen
    exact congrArg String.mk (by simpa using this)

/-- C6 witness: the truncation part of the amended theorem applied to
concrete long account ids and the distinct nonces 41 and 42. -/
theorem claim6_witness :
    24 ≤ ("0.0.123456789" ++ "-" ++ "0.0.987654321" ++ "-").length ∧
    generatePaymentRequestId "0.0.123456789" "0.0.987654321" 41 =
      generatePaymentRequestId "0.0.123456789" "0.0.987654321" 42 :=
  ⟨by decide,
    claim6_id_determinism_and_truncation.2 "0.0.123456789" "0.0.987654321" 41 42 (by decide)⟩

/-- C7: sponsor pinning is never enforced on relay — the signed message
built by the sign tool carries no `sponsorAccountId` key at all, so
`validateSponsorAuthorization` accepts EVERY relaying sponsor; concretely,
the request `pinnedReq` pins sponsor 0.0.999, yet relayer 0.0.123 passes
all guards and the transfer is executed. -/
theorem claim7_pinned_sponsor_not_enforced :
    (∀ (r : PaymentRequestMsg) (prId : String) (now seq : Nat) (bytes sponsorId : String),
      validateSponsorAuthorization (buildSignedMessage r prId now seq bytes) sponsorId =
        Except.ok ()) ∧
    pinnedReq.sponsorAccountId = some "0.0.999" ∧
    relayGaslessPayment c7Log 2 "0.0.123" ratPoint01 "tx9" 3000 = Except.ok c7Completion :=
  ⟨fun _ _ _ _ _ _ => rfl, rfl, rfl⟩

/-- C8: the log `c8Log` already contains a COMPLETED message for the
payment (sequence 3), yet a second relay of the signed message at sequence
2 passes every guard and executes the transfer again, returning ok instead
of an AlreadyProcessedError — the guards only inspect immutable fields of
the signed message itself, never the materialized view. -/
theorem claim8_second_relay_accepted :
    (∃ e ∈ c8Log, e.payload = TopicPayload.completed c8Completion1) ∧
    relayGaslessPayment c8Log 2 "0.0.888" ratPoint01 "tx2" 4000 = Except.ok c8Completion2 :=
  ⟨⟨⟨3, .completed c8Completion1⟩, List.Mem.tail _ (List.Mem.tail _ (List.Mem.head _)), rfl⟩,
    rfl⟩

/-- C9: the log `c9Log` already contains the SIGNED message for the request
at sequence 1, yet the original sender's second sign attempt passes every
guard and produces a second SIGNED message — the "already signed" check
inspects the immutable `status` field of the REQUEST message, which is
always "pending". -/
theorem claim9_resign_accepted :
    (∃ e ∈ c9Log, e.payload = TopicPayload.signed c9Signed) ∧
    signGaslessPayment c9Log c9Req.paymentRequestId 1 "0.0.U" 1500 "sb2" =
      Except.ok (buildSignedMessage c9Req c9Req.paymentRequestId 1500 1 "sb2") :=
  ⟨⟨⟨2, .signed c9Signed⟩, List.Mem.tail _ (List.Mem.head _), rfl⟩, rfl⟩

/-- C10: the `||` defaulting of the create tool replaces an explicitly
supplied falsy value: nonce 0 becomes `Date.now()` and maxFee 0 becomes
0.05, so no built request can carry a zero nonce (when `Date.now()` is
nonzero) or a zero max fee. -/
theorem claim10_zero_defaults :
    ∀ (p : CreateParams) (op : String) (now : Nat) (tb : String),
      (p.nonce = some 0 → (createGaslessPayment p op now tb).nonce = now) ∧
      (p.maxFee = some 0 → (createGaslessPayment p op now tb).maxFee = ratPoint05) ∧
      (now ≠ 0 → (createGaslessPayment p op now tb).nonce ≠ 0) ∧
      (createGaslessPayment p op now tb).maxFee ≠ 0 := by
  intro p op now tb
  refine ⟨?_, ?_, ?_, ?_⟩
  · intro h
    simp [createGaslessPayment, jsOrNat, h]
  · intro h
    simp [createGaslessPayment, jsOrRat, h]
  · intro hn
    rcases ho : p.nonce with _ | n
    · simp [createGaslessPayment, jsOrNat, ho, hn]
    · by_cases h0 : n = 0 <;> simp [createGaslessPayment, jsOrNat, ho, h0, hn]
  · rcases hm : p.maxFee with _ | q
    · simp only [createGaslessPayment, jsOrRat, hm]
      decide
    · by_cases h0 : q = 0
      · simp only [createGaslessPayment, jsOrRat, hm, h0, if_pos]
        decide
      · simp only [createGaslessPayment, jsOrRat, hm]
        rw [if_neg h0]
        exact h0

/-- C10 witness: the theorem applied to parameters passing nonce 0 and
maxFee 0 with `Date.now()` being 1000. -/
theorem claim10_witness :
    (createGaslessPayment zeroParams "0.0.U" 1000 "b").nonce = 1000 ∧
    (createGaslessPayment zeroParams "0.0.U" 1000 "b").maxFee = ratPoint05 ∧
    (createGaslessPayment zeroParams "0.0.U" 1000 "b").nonce ≠ 0 ∧
    (createGaslessPayment zeroParams "0.0.U" 1000 "b").maxFee ≠ 0 := by
  obtain ⟨h1, h2, h3, h4⟩ := claim10_zero_defaults zeroParams "0.0.U" 1000 "b"
  exact ⟨h1 rfl, h2 rfl, h3 (by decide), h4⟩

end HederaPay
